import Mathlib

/-!
Verification development for the `xtreme-pawsx` evaluation and preprocessing
code (`src/evaluate.py`, `src/preprocess.py`).

The Python code is shallowly embedded:
* a file system is a partial map from paths to the list of lines of the file
  (for `preprocess.py`, lines are kept as `List Char` so that character-level
  whitespace handling can be reasoned about);
* Python `dict`s are association lists with Python's insertion/update order
  (`dget` / `dinsert`);
* Python exceptions (`KeyError`, `FileNotFoundError`, `AssertionError`,
  `TypeError`, `IndexError`, `ZeroDivisionError`) are modelled with
  `Except PyErr`;
* floats are modelled as rationals (`ℚ`);
* the third-party `seqeval` scoring functions (not part of this repository)
  are abstracted as a parameter record `Seqeval`.
-/

namespace XtremePawsx

/-- Python exceptions that the embedded code can raise. -/
inductive PyErr where
  | keyError (k : String)
  | fileNotFound (f : String)
  | assertionError (msg : String)
  | typeError
  | indexError
  | zeroDivisionError
  deriving DecidableEq, Repr

/-- A file system for `evaluate.py`: path → lines of the file (stripped of
newline characters, as Python's line iteration plus `strip` treats them). -/
abbrev FS := String → Option (List String)

/-- Python `d[k]` lookup on an association-list dict: first binding wins
(keys are unique in an actual Python dict). -/
def dget {α : Type} : List (String × α) → String → Option α
  | [], _ => none
  | (k0, v) :: rest, k => if k0 = k then some v else dget rest k

/-- Python `d[k] = v` on an association-list dict: an existing key keeps its
position and gets the new value, a new key is appended at the end. -/
def dinsert {α : Type} : List (String × α) → String → α → List (String × α)
  | [], k, v => [(k, v)]
  | (k0, v0) :: rest, k, v =>
      if k0 = k then (k, v) :: rest else (k0, v0) :: dinsert rest k v

/-- Python `s.strip()` on a list of characters: drop whitespace at both
ends. (Python also strips `\x0b`/`\x0c`; the inputs considered here do not
contain them.) -/
def pyStrip (s : List Char) : List Char :=
  ((s.dropWhile Char.isWhitespace).reverse.dropWhile Char.isWhitespace).reverse

/-- Python `line.strip()` on a string, via its character list. -/
def pyStripStr (s : String) : String :=
  String.mk (pyStrip s.toList)

/-! ## `evaluate.py`: readers -/

/-- Loop body of `read_tag` (src/evaluate.py lines 26-36): accumulates the
current `example` and the finished `labels`; at end of input the in-progress
`example` is NOT appended (the original `return labels`). -/
def read_tag_lines : List String → List (List String) → List String → List (List String)
  | [], labels, _ex => labels
  | line :: rest, labels, ex =>
      let l := pyStripStr line
      if l ≠ "" then read_tag_lines rest labels (ex ++ [l])
      else read_tag_lines rest (labels ++ [ex]) []

/-- `read_tag(file)` (src/evaluate.py lines 26-36). `open` on a missing file
raises `FileNotFoundError`. -/
def read_tag (fs : FS) (file : String) : Except PyErr (List (List String)) :=
  match fs file with
  | none => .error (.fileNotFound file)
  | some lines => .ok (read_tag_lines lines [] [])

/-- `read_label(file)` (src/evaluate.py lines 39-40):
`[line.strip() for line in open(file)]`. -/
def read_label (fs : FS) (file : String) : Except PyErr (List String) :=
  match fs file with
  | none => .error (.fileNotFound file)
  | some lines => .ok (lines.map pyStripStr)

/-! ## `evaluate.py`: metrics -/

/-- The `seqeval` scoring functions imported at src/evaluate.py line 19.
They are third-party library code, so they are a parameter of the embedding;
each takes `(labels, predictions)` and returns a score on the 0-1 scale. -/
structure Seqeval where
  f1_score : List String → List String → ℚ
  precision_score : List String → List String → ℚ
  recall_score : List String → List String → ℚ

/-- `f1(labels, predictions, language=None)` (src/evaluate.py lines 43-51). -/
def f1 (sv : Seqeval) (labels predictions : List String)
    (_language : Option String) : List (String × ℚ) :=
  [("f1", sv.f1_score labels predictions * 100),
   ("precision", sv.precision_score labels predictions * 100),
   ("recall", sv.recall_score labels predictions * 100)]

/-- `accuracy(labels, predictions, language=None)` (src/evaluate.py lines
54-57): `correct = sum(int(p == l) for p, l in zip(predictions, labels))`,
then `float(correct) / len(predictions)` (a `ZeroDivisionError` when
`predictions` is empty), returned as `{'accuracy': accuracy * 100}`. -/
def accuracy (labels predictions : List String)
    (_language : Option String) : Except PyErr (List (String × ℚ)) :=
  let correct := ((predictions.zip labels).filter (fun pl => pl.1 = pl.2)).length
  if predictions.length = 0 then .error .zeroDivisionError
  else .ok [("accuracy", ((correct : ℚ) / (predictions.length : ℚ)) * 100)]

/-! ## `evaluate.py`: registry -/

/-- `GROUP2TASK` (src/evaluate.py lines 60-62). Note: there is no `"qa"`
key. -/
def GROUP2TASK : List (String × List String) :=
  [("classification", ["pawsx", "xnli"])]

/-- `TASK2LANGS` (src/evaluate.py lines 64-66). -/
def TASK2LANGS : List (String × List String) :=
  [("pawsx", ["de", "en", "es", "fr", "ja", "ko", "zh"])]

/-- `READER_FUNCTION` (src/evaluate.py lines 68-70). -/
def READER_FUNCTION : List (String × (FS → String → Except PyErr (List String))) :=
  [("pawsx", read_label)]

/-- `METRIC_FUNCTION` (src/evaluate.py lines 72-74): `{'pawsx': f1}`. -/
def METRIC_FUNCTION (sv : Seqeval) :
    List (String × (List String → List String → Option String → List (String × ℚ))) :=
  [("pawsx", f1 sv)]

/-! ## `evaluate.py`: per-task evaluation -/

/-- `evaluate_one_task(prediction_file, label_file, task, language)`
(src/evaluate.py lines 77-96). `READER_FUNCTION[task]` /
`METRIC_FUNCTION[task]` raise `KeyError` on an unknown task; for non-span
tasks an `assert` compares the two example counts. -/
def evaluate_one_task (sv : Seqeval) (fs : FS)
    (prediction_file label_file task : String) (language : Option String) :
    Except PyErr (List (String × ℚ)) :=
  match dget READER_FUNCTION task with
  | none => .error (.keyError task)
  | some reader => do
      let predictions ← reader fs prediction_file
      let labels ← reader fs label_file
      if !(["bucc2018", "mlqa", "tydiqa", "xquad"].contains task)
          && predictions.length != labels.length then
        .error (.assertionError ("Number of examples in " ++ prediction_file
          ++ " and " ++ label_file ++ " not matched in " ++ task ++ " task"))
      else
        match dget (METRIC_FUNCTION sv) task with
        | none => .error (.keyError task)
        | some metric => .ok (metric labels predictions language)

/-- A value of the per-task `score` dict: during the language loop the values
are per-language dicts (`defaultdict(dict)`), after averaging also plain
numbers (`score.update(avg_score)` mixes both). -/
inductive SVal where
  | dict (d : List (String × ℚ))
  | num (q : ℚ)
  deriving DecidableEq, Repr

/-- A per-task score structure, and the detailed-scores mapping. -/
abbrev Score := List (String × SVal)

abbrev Detailed := List (String × Score)

/-- `for metric in score_lg: score[metric][lg] = score_lg[metric]`
(src/evaluate.py lines 127-128). `score` is a `defaultdict(dict)`, so a
missing metric key yields a fresh empty dict; indexing `[lg]` into a
non-dict value would be a `TypeError`. -/
def addLangScores (score : Score) (lg : String) :
    List (String × ℚ) → Except PyErr Score
  | [] => .ok score
  | (m, v) :: rest =>
      match dget score m with
      | some (SVal.num _) => .error .typeError
      | some (SVal.dict d) =>
          addLangScores (dinsert score m (SVal.dict (dinsert d lg v))) lg rest
      | none =>
          addLangScores (dinsert score m (SVal.dict (dinsert [] lg v))) lg rest

/-- The per-language loop of `evaluate` (src/evaluate.py lines 118-128):
build the two paths, call `evaluate_one_task`, fold the result into `score`.
There is no existence check on either file. -/
def evalTaskLangs (sv : Seqeval) (fs : FS)
    (prediction_folder label_folder task suffix : String) :
    List String → Score → Except PyErr Score
  | [], score => .ok score
  | lg :: rest, score => do
      let prediction_file :=
        prediction_folder ++ "/" ++ task ++ "/test-" ++ lg ++ "." ++ suffix
      let label_file :=
        label_folder ++ "/" ++ task ++ "/test-" ++ lg ++ "." ++ suffix
      let score_lg ← evaluate_one_task sv fs prediction_file label_file task (some lg)
      let score1 ← addLangScores score lg score_lg
      evalTaskLangs sv fs prediction_folder label_folder task suffix rest score1

/-- The `avg_score` dict built at src/evaluate.py lines 130-132:
`avg_score['avg_' + m] = sum(score[m].values()) / len(score[m])` for each
`m` in `score`, in iteration order. An empty per-language dict would be a
`ZeroDivisionError`; a plain-number value has no `.values()` (`TypeError`
stands in for the `AttributeError`). -/
def avgList : Score → Except PyErr (List (String × SVal))
  | [] => .ok []
  | (_m, SVal.num _) :: _ => .error .typeError
  | (m, SVal.dict d) :: rest =>
      if d.length = 0 then .error .zeroDivisionError
      else do
        let restAvg ← avgList rest
        .ok (("avg_" ++ m, SVal.num ((d.map Prod.snd).sum / (d.length : ℚ)))
              :: restAvg)

/-- Python `score.update(avg_score)`: fold the new bindings in with dict
assignment semantics. -/
def dictUpdate : Score → List (String × SVal) → Score
  | s, [] => s
  | s, (k, v) :: rest => dictUpdate (dinsert s k v) rest

/-- Lines 130-133 of src/evaluate.py: compute the `avg_<metric>` entries and
`score.update(avg_score)`. -/
def avgScore (score : Score) : Except PyErr Score := do
  let avg ← avgList score
  .ok (dictUpdate score avg)

/-- Lines 134-140 of src/evaluate.py: the task-level summary metric.
`task in GROUP2TASK["qa"]` is evaluated first — `GROUP2TASK` has no `"qa"`
key, so this raises `KeyError('qa')` before any branch can be taken. -/
def setAvgMetric (task : String) (score : Score) : Except PyErr Score :=
  match dget GROUP2TASK "qa" with
  | none => .error (.keyError "qa")
  | some qa =>
      if qa.contains task then
        match dget score "avg_exact_match", dget score "avg_f1" with
        | some (SVal.num a), some (SVal.num b) =>
            .ok (dinsert score "avg_metric" (SVal.num ((a + b) / 2)))
        | none, _ => .error (.keyError "avg_exact_match")
        | some _, none => .error (.keyError "avg_f1")
        | _, _ => .error .typeError
      else
        match dget score "avg_f1" with
        | some v => .ok (dinsert score "avg_metric" v)
        | none =>
            match dget score "avg_accuracy" with
            | some v => .ok (dinsert score "avg_metric" v)
            | none => .ok score

/-- The per-task loop of `evaluate` (src/evaluate.py lines 113-141): for each
registry task present in both folder listings, pick the suffix via
`GROUP2TASK["qa"]`, run the language loop, average, set `avg_metric`, and
store the result in `detailed_scores`. -/
def evalTasks (sv : Seqeval) (fs : FS) (prediction_folder label_folder : String)
    (prediction_tasks label_tasks : List String) :
    List (String × List String) → Detailed → Except PyErr Detailed
  | [], det => .ok det
  | (task, langs) :: rest, det =>
      if prediction_tasks.contains task && label_tasks.contains task then do
        match dget GROUP2TASK "qa" with
        | none => .error (.keyError "qa")
        | some qa => do
            let suffix := if qa.contains task then "json" else "tsv"
            let score ← evalTaskLangs sv fs prediction_folder label_folder
                          task suffix langs []
            let score1 ← avgScore score
            let score2 ← setAvgMetric task score1
            evalTasks sv fs prediction_folder label_folder prediction_tasks
              label_tasks rest (dinsert det task score2)
      else
        evalTasks sv fs prediction_folder label_folder prediction_tasks
          label_tasks rest det

/-- `sum(detailed_scores[task]['avg_metric'] for task in ts)`:
`detailed_scores[task]` and `['avg_metric']` raise `KeyError` when absent;
adding a dict value would be a `TypeError`. -/
def sumAvgMetric (det : Detailed) : List String → Except PyErr ℚ
  | [] => .ok 0
  | t :: rest =>
      match dget det t with
      | none => .error (.keyError t)
      | some sc =>
          match dget sc "avg_metric" with
          | some (SVal.num q) => do
              let s ← sumAvgMetric det rest
              .ok (q + s)
          | some (SVal.dict _) => .error .typeError
          | none => .error (.keyError "avg_metric")

/-- The group part of the display logic (src/evaluate.py lines 161-165):
for each group with `len(set(group_tasks) - available_tasks) == 0`, add the
mean of the members' `avg_metric`. -/
def overallGroups (det : Detailed) :
    List (String × ℚ) → List (String × List String) → Except PyErr (List (String × ℚ))
  | ov, [] => .ok ov
  | ov, (group, gtasks) :: rest =>
      if gtasks.all (fun t => (det.map Prod.fst).contains t) then do
        let s ← sumAvgMetric det gtasks
        overallGroups det (dinsert ov group (s / (gtasks.length : ℚ))) rest
      else overallGroups det ov rest

/-- The display logic of `evaluate` (src/evaluate.py lines 150-165): the
`all_task` entry when the available tasks equal all registry tasks (as sets),
then one entry per fully-available group. -/
def overallScores (det : Detailed) : Except PyErr (List (String × ℚ)) := do
  let all_tasks := TASK2LANGS.map Prod.fst
  let available := det.map Prod.fst
  let base ←
    if all_tasks.all (fun t => available.contains t)
        && available.all (fun t => all_tasks.contains t) then do
      let s ← sumAvgMetric det all_tasks
      .ok [("all_task", s / (all_tasks.length : ℚ))]
    else
      .ok ([] : List (String × ℚ))
  overallGroups det base GROUP2TASK

/-- `evaluate(prediction_folder, label_folder)` (src/evaluate.py lines
99-167). The two first-level folder listings produced by `os.walk` are
passed in as `prediction_tasks` / `label_tasks`. Returns
`(overall_scores, detailed_scores)`. -/
def evaluate (sv : Seqeval) (fs : FS) (prediction_folder label_folder : String)
    (prediction_tasks label_tasks : List String) :
    Except PyErr (List (String × ℚ) × Detailed) := do
  let det ← evalTasks sv fs prediction_folder label_folder prediction_tasks
              label_tasks TASK2LANGS []
  let ov ← overallScores det
  .ok (ov, det)

/-! ## `preprocess.py` -/

/-- A file system for `preprocess.py`: path → lines, each line a list of
characters (newlines already split off, as in Python's line iteration
followed by `strip`). -/
abbrev CharFS := String → Option (List (List Char))

/-- `' '.join(x.strip().split(' '))` (src/preprocess.py lines 31-32): strip
the field, split on every single space, re-join with single spaces. -/
def normField (s : List Char) : List Char :=
  List.intercalate [' '] ((pyStrip s).splitOn ' ')

/-- Python `l[i]` with `IndexError` on overrun. -/
def pyIndex {α : Type} (l : List α) (i : Nat) : Except PyErr α :=
  match l.get? i with
  | some v => .ok v
  | none => .error .indexError

/-- One data row of `_preprocess_one_file` (src/preprocess.py lines 30-34):
`items = line.strip().split('\t')`, then
`[' '.join(items[1].strip().split(' ')), ' '.join(items[2].strip().split(' ')), items[3]]`. -/
def preprocessRow (line : List Char) : Except PyErr (List (List Char)) := do
  let items := (pyStrip line).splitOn '\t'
  let s1 ← pyIndex items 1
  let s2 ← pyIndex items 2
  let lab ← pyIndex items 3
  .ok [normField s1, normField s2, lab]

/-- The row loop of `_preprocess_one_file`, applied to the lines after the
header. -/
def preprocessRowsAux : List (List Char) → Except PyErr (List (List (List Char)))
  | [] => .ok []
  | line :: rest => do
      let row ← preprocessRow line
      let rows ← preprocessRowsAux rest
      .ok (row :: rows)

/-- The `data` list built by `_preprocess_one_file(infile)` (src/preprocess.py
lines 25-34): `if i == 0: continue` drops the header row, every other line
becomes one `[sent1, sent2, label]` row. -/
def preprocess_one_file_data (lines : List (List Char)) :
    Except PyErr (List (List (List Char))) :=
  preprocessRowsAux (lines.drop 1)

/-- The write step of `_preprocess_one_file` (src/preprocess.py lines 35-38):
`csv.writer(fout, delimiter='\t').writerow(row)` for each row. The writer's
`QUOTE_MINIMAL` quoting only triggers for fields containing a tab, a quote
character or a newline; the tab-split, stripped fields produced above contain
no tab or newline, and quote-containing fields are not modelled. -/
def renderRow (row : List (List Char)) : List Char :=
  List.intercalate ['\t'] row

/-- Number of parameters in the definition
`def _preprocess_one_file(infile)` (src/preprocess.py line 25). -/
def preprocessOneFileParamCount : Nat := 1

/-- Number of arguments at the call site
`_preprocess_one_file(infile, outfile)` (src/preprocess.py line 49). -/
def preprocessOneFileCallArgCount : Nat := 2

/-- The call `_preprocess_one_file(infile, outfile)` as executed by Python:
the argument count is checked against the function's parameter count before
the body runs (`TypeError` on mismatch); on a match the body would read
`infile`, build the rows and write them to `outfile`. -/
def callPreprocessOneFile (fs : CharFS) (infile outfile : String) :
    Except PyErr CharFS :=
  if preprocessOneFileCallArgCount ≠ preprocessOneFileParamCount then
    .error .typeError
  else
    match fs infile with
    | none => .error (.fileNotFound infile)
    | some lines => do
        let rows ← preprocess_one_file_data lines
        .ok (fun p => if p = outfile then some (rows.map renderRow) else fs p)

/-- `split2file` (src/preprocess.py line 42). -/
def split2file : List (String × String) :=
  [("train", "train"), ("test", "test_2k"), ("dev", "dev_2k")]

/-- The inner split loop of `pawsx_preprocess` (src/preprocess.py lines
44-50): look up the file stem, build `infile`/`outfile`, call the helper. -/
def preprocessSplits (data_dir output_dir lang : String) :
    List String → CharFS → Except PyErr CharFS
  | [], fs => .ok fs
  | split :: rest, fs =>
      match dget split2file split with
      | none => .error (.keyError split)
      | some file => do
          let infile := data_dir ++ "/" ++ lang ++ "/" ++ file ++ ".tsv"
          let outfile := output_dir ++ "/" ++ split ++ "-" ++ lang ++ ".tsv"
          let fs1 ← callPreprocessOneFile fs infile outfile
          preprocessSplits data_dir output_dir lang rest fs1

/-- The outer language loop of `pawsx_preprocess` (src/preprocess.py line
43). -/
def preprocessLangs (data_dir output_dir : String) :
    List String → CharFS → Except PyErr CharFS
  | [], fs => .ok fs
  | lang :: rest, fs => do
      let fs1 ← preprocessSplits data_dir output_dir lang
                  ["train", "test", "dev"] fs
      preprocessLangs data_dir output_dir rest fs1

/-- `pawsx_preprocess(args)` (src/preprocess.py lines 24-50). The
`os.makedirs` call only creates the output directory and is not modelled. -/
def pawsx_preprocess (data_dir output_dir : String) (fs : CharFS) :
    Except PyErr CharFS :=
  preprocessLangs data_dir output_dir
    ["en", "de", "es", "fr", "ja", "ko", "zh"] fs

end XtremePawsx

deriving instance DecidableEq for Except

namespace XtremePawsx

/-! ## Claim-side definitions

These definitions formalise notions used by the specification's claims; they
are compared against the embedded code in the theorems below. -/

/-- Number of positions `i < n` at which the predicted label equals the gold
label (the claim's notion of matching positions, stated by index rather than
by the code's `zip`). -/
def countMatches (predictions labels : List String) (n : Nat) : Nat :=
  ((List.range n).filter (fun i => predictions.getD i "" = labels.getD i "")).length

/-- The `avg_metric` value a task produced in the detailed scores, if any
(the claim's "task produced an avg_metric"). -/
def avgMetricOf (det : Detailed) (t : String) : Option ℚ :=
  match dget det t with
  | some sc =>
      match dget sc "avg_metric" with
      | some (SVal.num q) => some q
      | _ => none
  | none => none

/-- The claim's combined score for a list of member tasks: present exactly
when every member produced an `avg_metric`, and then equal to the arithmetic
mean of those values. -/
def meanAvgMetric (det : Detailed) (ts : List String) : Option ℚ :=
  if (ts.map (avgMetricOf det)).all Option.isSome then
    some ((ts.filterMap (avgMetricOf det)).sum / (ts.length : ℚ))
  else none

/-- Underlying per-language dict of an `SVal` (empty for a plain number). -/
def dOf : SVal → List (String × ℚ)
  | SVal.dict d => d
  | SVal.num _ => []

/-- Whether an `SVal` is a nonempty per-language dict. -/
def isNEDict : SVal → Bool
  | SVal.dict d => !d.isEmpty
  | SVal.num _ => false

/-- The `avg_<metric>` binding produced for one `score` entry by the
averaging step. -/
def avgKV (p : String × SVal) : String × SVal :=
  ("avg_" ++ p.1, SVal.num (((dOf p.2).map Prod.snd).sum / ((dOf p.2).length : ℚ)))

/-! ## Concrete instances used by witnesses and counterexamples -/

/-- A concrete `Seqeval` instantiation (all scores 0). -/
def svZero : Seqeval := ⟨fun _ _ => 0, fun _ _ => 0, fun _ _ => 0⟩

/-- A file system where every pawsx file exists except the `de` prediction
file. -/
def fsMissDe : FS :=
  fun p => if p = "P/pawsx/test-de.tsv" then none else some ["0"]

/-- A file system where only the two `de` pawsx files exist. -/
def fsDeOnly : FS :=
  fun p =>
    if p = "P/pawsx/test-de.tsv" then some ["0"]
    else if p = "L/pawsx/test-de.tsv" then some ["0"] else none

/-- A file system where every pawsx file has one line except the `de` label
file, which has two. -/
def fsMismatch : FS :=
  fun p => if p = "L/pawsx/test-de.tsv" then some ["0", "1"] else some ["0"]

/-- A two-file file system with a one-line prediction file `p` and a
two-line label file `l`. -/
def fsPairMismatch : FS :=
  fun q => if q = "l" then some ["0", "1"] else if q = "p" then some ["0"] else none

/-- A tag file whose final example is not followed by a blank line, and the
same file with a trailing blank line. -/
def fsTagNoBlank : FS :=
  fun p => if p = "tags" then some ["B-PER", "O"] else none

def fsTagBlank : FS :=
  fun p => if p = "tags" then some ["B-PER", "O", ""] else none

/-- The score structure used by the C5 witness: metric `f1` computed for two
languages. -/
def score5 : Score := [("f1", SVal.dict [("en", (80 : ℚ)), ("fr", (90 : ℚ))])]

/-! ## Helper lemmas -/

/-- The averaging loop succeeds on a score whose values are all nonempty
dicts and produces exactly one `avg_<metric>` binding per metric. -/
theorem avgList_eq : ∀ score : Score, (∀ p ∈ score, isNEDict p.2 = true) →
    avgList score = .ok (score.map avgKV) := by
  intro score
  induction score with
  | nil => intro _; rfl
  | cons p rest ih =>
      intro h
      obtain ⟨m, v⟩ := p
      cases v with
      | num q =>
          exact absurd (h (m, SVal.num q) (List.mem_cons_self _ _)) (by simp [isNEDict])
      | dict d =>
          have hd : d.isEmpty = false := by
            have := h (m, SVal.dict d) (List.mem_cons_self _ _)
            simpa [isNEDict] using this
          have hlen : d.length ≠ 0 := by
            cases d with
            | nil => simp [List.isEmpty] at hd
            | cons x xs => simp
          rw [avgList, if_neg hlen, ih (fun q hq => h q (List.mem_cons_of_mem _ hq))]
          simp [Bind.bind, Except.bind, avgKV, dOf]

/-- Inserting a fresh key appends it at the end of the dict. -/
theorem dinsert_append {α : Type} (s : List (String × α)) (k : String) (v : α)
    (h : k ∉ s.map Prod.fst) : dinsert s k v = s ++ [(k, v)] := by
  induction s with
  | nil => rfl
  | cons p rest ih =>
      simp only [List.map_cons, List.mem_cons] at h
      push_neg at h
      rw [dinsert, if_neg (fun he => h.1 he.symm), ih h.2]
      simp

/-- `dict.update` with disjoint fresh keys appends the new bindings. -/
theorem dictUpdate_append : ∀ (kvs s : Score),
    (kvs.map Prod.fst).Nodup →
    (∀ k ∈ kvs.map Prod.fst, k ∉ s.map Prod.fst) →
    dictUpdate s kvs = s ++ kvs := by
  intro kvs
  induction kvs with
  | nil => intro s _ _; simp [dictUpdate]
  | cons p rest ih =>
      intro s hnd hdisj
      have hnd' : (p.1 :: rest.map Prod.fst).Nodup := by simpa using hnd
      obtain ⟨hp1, hndr⟩ := List.nodup_cons.mp hnd'
      have hd2 : ∀ k ∈ List.map Prod.fst rest, k ∉ List.map Prod.fst (s ++ [(p.1, p.2)]) := by
        intro k hk hmem2
        rw [List.map_append] at hmem2
        rcases List.mem_append.mp hmem2 with hks | hkp
        · exact hdisj k (by simp [hk]) hks
        · have hkp1 : k = p.1 := by simpa using hkp
          exact hp1 (hkp1 ▸ hk)
      rw [dictUpdate, dinsert_append s p.1 p.2 (hdisj p.1 (by simp)),
        ih (s ++ [(p.1, p.2)]) hndr hd2]
      simp

/-- Looking up a key absent from the first part of an appended dict falls
through to the second part. -/
theorem dget_append_right {α : Type} : ∀ (s t : List (String × α)) (k : String),
    k ∉ s.map Prod.fst → dget (s ++ t) k = dget t k := by
  intro s t k
  induction s with
  | nil => intro _; rfl
  | cons p rest ih =>
      intro h
      simp only [List.map_cons, List.mem_cons] at h
      push_neg at h
      rw [List.cons_append, dget, if_neg (fun he => h.1 he.symm)]
      exact ih h.2

/-- The `avg_` key builder is injective. -/
theorem avg_key_inj {a b : String} (h : "avg_" ++ a = "avg_" ++ b) : a = b := by
  have hd := congrArg String.data h
  simp only [String.data_append] at hd
  have := List.append_cancel_left hd
  cases a; cases b
  exact congrArg String.mk (by simpa using this)

/-- Looking up `avg_<m>` among the averaged bindings finds the mean of `m`'s
per-language dict. -/
theorem dget_map_avgKV : ∀ (score : Score) (m : String) (d : List (String × ℚ)),
    (score.map Prod.fst).Nodup → (m, SVal.dict d) ∈ score →
    dget (score.map avgKV) ("avg_" ++ m)
      = some (SVal.num ((d.map Prod.snd).sum / (d.length : ℚ))) := by
  intro score
  induction score with
  | nil => intro m d _ hmem; simp at hmem
  | cons p rest ih =>
      intro m d hnd hmem
      obtain ⟨m0, v0⟩ := p
      have hnd' : (m0 :: rest.map Prod.fst).Nodup := by simpa using hnd
      obtain ⟨hm0, hndr⟩ := List.nodup_cons.mp hnd'
      rw [List.map_cons, dget]
      by_cases hm : m0 = m
      · subst hm
        rcases List.mem_cons.mp hmem with heq | hmem'
        · have hv : v0 = SVal.dict d := (Prod.mk.injEq _ _ _ _ ▸ heq.symm).2
          rw [if_pos (by simp [avgKV])]
          simp [avgKV, hv, dOf]
        · exact absurd (List.mem_map.mpr ⟨(m0, SVal.dict d), hmem', rfl⟩) hm0
      · rw [if_neg (by simp [avgKV]; exact fun hc => hm (avg_key_inj hc))]
        rcases List.mem_cons.mp hmem with heq | hmem'
        · exact absurd (congrArg Prod.fst heq.symm) hm
        · exact ih m d hndr hmem'

/-- The zip-based match count of `accuracy` equals the index-based count. -/
theorem zip_count_eq_countMatches :
    ∀ (ps ls : List String) (n : Nat), ps.length = n → ls.length = n →
      ((ps.zip ls).filter (fun pl => pl.1 = pl.2)).length = countMatches ps ls n := by
  intro ps
  induction ps with
  | nil =>
      intro ls n hp hl
      simp [countMatches, ← hp]
  | cons p ps ih =>
      intro ls n hp hl
      cases ls with
      | nil => simp at hp hl; omega
      | cons l ls' =>
          cases n with
          | zero => simp at hp
          | succ m =>
              simp only [List.length_cons, Nat.succ.injEq] at hp hl
              by_cases hpl : p = l <;>
                simp [countMatches, List.range_succ_eq_map, List.filter_cons,
                  List.filter_map, Function.comp_def, List.getElem?_cons_succ,
                  hpl, ih ls' m hp hl]

/-- `' '.join(x.split(' '))` is the identity, so `normField` only strips. -/
theorem normField_eq_strip (s : List Char) : normField s = pyStrip s := by
  unfold normField
  exact List.intercalate_splitOn (pyStrip s) ' '

/-- In-range Python indexing returns the list element. -/
theorem pyIndex_eq {α : Type} (l : List α) (i : Nat) (d : α) (h : i < l.length) :
    pyIndex l i = .ok (l.getD i d) := by
  unfold pyIndex
  rw [List.get?_eq_getElem?, List.getElem?_eq_getElem h, List.getD_eq_getElem?_getD,
    List.getElem?_eq_getElem h]
  rfl

/-- A row with at least four tab fields is turned into
`[strip field1, strip field2, field3]`. -/
theorem preprocessRow_eq (line : List Char)
    (h : 3 < ((pyStrip line).splitOn '\t').length) :
    preprocessRow line =
      .ok [pyStrip (((pyStrip line).splitOn '\t').getD 1 []),
           pyStrip (((pyStrip line).splitOn '\t').getD 2 []),
           ((pyStrip line).splitOn '\t').getD 3 []] := by
  simp only [preprocessRow]
  rw [pyIndex_eq _ 1 [] (by omega), pyIndex_eq _ 2 [] (by omega),
    pyIndex_eq _ 3 [] h]
  simp [Bind.bind, Except.bind, normField_eq_strip]

/-- The row loop maps `preprocessRow` over well-formed rows. -/
theorem preprocessRowsAux_eq : ∀ rows : List (List Char),
    (∀ line ∈ rows, 3 < ((pyStrip line).splitOn '\t').length) →
    preprocessRowsAux rows =
      .ok (rows.map (fun line =>
        [pyStrip (((pyStrip line).splitOn '\t').getD 1 []),
         pyStrip (((pyStrip line).splitOn '\t').getD 2 []),
         ((pyStrip line).splitOn '\t').getD 3 []])) := by
  intro rows
  induction rows with
  | nil => intro _; rfl
  | cons line rest ih =>
      intro h
      rw [preprocessRowsAux, preprocessRow_eq line (h line (List.mem_cons_self _ _)),
        ih (fun l hl => h l (List.mem_cons_of_mem _ hl))]
      rfl

/-! ## Claims -/

/-- Claim C1 (code bug): the claim says the suffix is selected by span-group
membership, yielding `tsv` for `pawsx` without any configuration lookup
failure; in the code `GROUP2TASK` has no `"qa"` key, so as soon as `pawsx`
is present in both folder listings, `evaluate` raises `KeyError('qa')` at
the suffix-selection line, for every file system. -/
theorem C1_suffix_lookup_keyerror (sv : Seqeval) (fs : FS) (pf lf : String) :
    dget GROUP2TASK "qa" = none
    ∧ evaluate sv fs pf lf ["pawsx"] ["pawsx"] = .error (.keyError "qa") :=
  ⟨rfl, rfl⟩

/-- Claim C2 (counterexample): with every pawsx file present except the `de`
prediction file, the engine does not silently skip `de` and average over the
rest: the language loop stops with `FileNotFoundError` for the missing file,
and `evaluate` itself fails (with the earlier `KeyError('qa')`) instead of
producing a per-language score mapping. -/
theorem C2_missing_file_counterexample :
    evalTaskLangs svZero fsMissDe "P" "L" "pawsx" "tsv"
        ["de", "en", "es", "fr", "ja", "ko", "zh"] [] =
      .error (.fileNotFound "P/pawsx/test-de.tsv")
    ∧ evaluate svZero fsMissDe "P" "L" ["pawsx"] ["pawsx"] =
      .error (.keyError "qa") :=
  ⟨rfl, rfl⟩

/-- Claim C2 (amended): a language with an absent prediction or label file is
not skipped — the per-language loop only succeeds when both files of every
declared language are present (a missing file raises a file-not-found error
that aborts the task). -/
theorem C2_no_silent_skip (sv : Seqeval) (fs : FS)
    (pf lf task suffix : String) :
    ∀ (langs : List String) (score0 res : Score),
      evalTaskLangs sv fs pf lf task suffix langs score0 = .ok res →
      ∀ lg ∈ langs,
        (fs (pf ++ "/" ++ task ++ "/test-" ++ lg ++ "." ++ suffix)).isSome = true
        ∧ (fs (lf ++ "/" ++ task ++ "/test-" ++ lg ++ "." ++ suffix)).isSome = true := by
  intro langs
  induction langs with
  | nil => intro s0 res h lg hmem; simp at hmem
  | cons lg0 rest ih =>
      intro s0 res h lg hmem
      rw [evalTaskLangs] at h
      cases he : evaluate_one_task sv fs
          (pf ++ "/" ++ task ++ "/test-" ++ lg0 ++ "." ++ suffix)
          (lf ++ "/" ++ task ++ "/test-" ++ lg0 ++ "." ++ suffix) task (some lg0) with
      | error e => rw [he] at h; simp only [Bind.bind, Except.bind] at h; cases h
      | ok v =>
          rw [he] at h
          simp only [Bind.bind, Except.bind] at h
          cases ha : addLangScores s0 lg0 v with
          | error e => rw [ha] at h; cases h
          | ok s1 =>
              rw [ha] at h
              rcases List.mem_cons.mp hmem with rfl | hmem'
              · unfold evaluate_one_task at he
                by_cases ht : "pawsx" = task
                · simp only [READER_FUNCTION, dget, if_pos ht] at he
                  cases hfp : fs (pf ++ "/" ++ task ++ "/test-" ++ lg ++ "." ++ suffix) with
                  | none =>
                      simp only [read_label, hfp, Bind.bind, Except.bind] at he
                      cases he
                  | some plines =>
                      cases hfl : fs (lf ++ "/" ++ task ++ "/test-" ++ lg ++ "." ++ suffix) with
                      | none =>
                          simp only [read_label, hfp, hfl, Bind.bind, Except.bind] at he
                          cases he
                      | some llines => exact ⟨by simp [hfp], by simp [hfl]⟩
                · simp only [READER_FUNCTION, dget, if_neg ht] at he
                  cases he
              · exact ih s1 res h lg hmem'

/-- Claim C2 (witness): a concrete successful run of the language loop, from
which the theorem yields that both `de` files are present. -/
theorem C2_no_silent_skip_witness :
    (fsDeOnly "P/pawsx/test-de.tsv").isSome = true
    ∧ (fsDeOnly "L/pawsx/test-de.tsv").isSome = true := by
  have h := C2_no_silent_skip svZero fsDeOnly "P" "L" "pawsx" "tsv" ["de"] [] _ rfl
  exact h "de" (List.mem_singleton.mpr rfl)

/-- Claim C3 (counterexample): with the `de` prediction and label files
parsing to 1 and 2 examples respectively, evaluation of the `pawsx` task via
the engine does not fail with the claimed count-mismatch assertion naming
the two files — it fails with `KeyError('qa')` before any file is read. -/
theorem C3_mismatch_counterexample :
    evaluate svZero fsMismatch "P" "L" ["pawsx"] ["pawsx"] =
      .error (.keyError "qa") :=
  rfl

/-- Claim C3 (amended): `evaluate_one_task`, invoked directly on the
non-span task `pawsx` with files parsing to different example counts, raises
an `AssertionError` whose message names the two files and the task; inside
`evaluate` this point is never reached (the `'qa'` lookup fails first), and
no exception raised in the task loop is caught, so a task error would abort
the whole evaluation rather than only that task. -/
theorem C3_count_mismatch_assert (sv : Seqeval) (fs : FS)
    (pfile lfile : String) (lang : Option String) (plines llines : List String)
    (hp : fs pfile = some plines) (hl : fs lfile = some llines)
    (hne : plines.length ≠ llines.length) :
    evaluate_one_task sv fs pfile lfile "pawsx" lang =
      .error (.assertionError ("Number of examples in " ++ pfile ++ " and "
        ++ lfile ++ " not matched in " ++ "pawsx" ++ " task")) := by
  unfold evaluate_one_task
  simp [READER_FUNCTION, dget, read_label, hp, hl, hne, Bind.bind, Except.bind]

/-- Claim C3 (witness): the assertion fires on a concrete 1-line/2-line file
pair, with both file names and the task in the message. -/
theorem C3_count_mismatch_assert_witness :
    evaluate_one_task svZero fsPairMismatch "p" "l" "pawsx" none =
      .error (.assertionError ("Number of examples in " ++ "p" ++ " and "
        ++ "l" ++ " not matched in " ++ "pawsx" ++ " task")) :=
  C3_count_mismatch_assert svZero fsPairMismatch "p" "l" none ["0"] ["0", "1"]
    rfl rfl (by decide)

/-- Claim C4: whenever `evaluate` returns, the overall-scores mapping has an
`all_task` entry (resp. one entry per registry group) exactly when every
registered task (resp. every group member) produced an `avg_metric`, and the
entry then equals the arithmetic mean of those values — `meanAvgMetric`
formalises exactly that presence-iff-and-mean clause of the claim. -/
theorem C4_overall_scores_iff (sv : Seqeval) (fs : FS) (pf lf : String)
    (ptasks ltasks : List String) (ov : List (String × ℚ)) (det : Detailed)
    (h : evaluate sv fs pf lf ptasks ltasks = .ok (ov, det)) :
    dget ov "all_task" = meanAvgMetric det (TASK2LANGS.map Prod.fst)
    ∧ ∀ g gts, (g, gts) ∈ GROUP2TASK → dget ov g = meanAvgMetric det gts := by
  have hov : overallScores [] = .ok [] := rfl
  by_cases hc : "pawsx" ∈ ptasks ∧ "pawsx" ∈ ltasks
  · exfalso
    simp [evaluate, TASK2LANGS, evalTasks, hc, GROUP2TASK, dget,
      Bind.bind, Except.bind] at h
  · simp [evaluate, TASK2LANGS, evalTasks, hc, hov, Bind.bind, Except.bind] at h
    obtain ⟨rfl, rfl⟩ := h
    constructor
    · rfl
    · intro g gts hg
      simp only [GROUP2TASK, List.mem_singleton] at hg
      obtain ⟨rfl, rfl⟩ := Prod.mk.injEq _ _ _ _ ▸ hg
      rfl

/-- Claim C4 (witness): a concrete successful evaluation (no task eligible),
instantiating both the global and the `classification` group equivalence. -/
theorem C4_overall_scores_iff_witness :
    dget ([] : List (String × ℚ)) "all_task"
      = meanAvgMetric [] (TASK2LANGS.map Prod.fst)
    ∧ dget ([] : List (String × ℚ)) "classification"
      = meanAvgMetric [] ["pawsx", "xnli"] := by
  have h := C4_overall_scores_iff svZero (fun _ => none) "p" "l" [] [] [] [] rfl
  exact ⟨h.1, h.2 "classification" ["pawsx", "xnli"] (List.mem_singleton.mpr rfl)⟩

/-- Claim C5: the averaging step (lines 130-133) stores, for every metric
observed for the task, an `avg_<metric>` entry equal to the arithmetic mean
of that metric's per-language scores, the denominator being the number of
languages that produced a value (`d.length`), not the declared language
count. Hypotheses: metric keys are distinct, every value is a nonempty
per-language dict, and no raw metric is itself named `avg_<other metric>` —
all true of any score built by the language loop. -/
theorem C5_avg_metric_mean (score : Score) (m : String) (d : List (String × ℚ))
    (hnd : (score.map Prod.fst).Nodup)
    (hdicts : ∀ p ∈ score, isNEDict p.2 = true)
    (hfresh : ∀ p ∈ score, ("avg_" ++ p.1) ∉ score.map Prod.fst)
    (hmem : (m, SVal.dict d) ∈ score) :
    avgScore score = .ok (score ++ score.map avgKV)
    ∧ dget (score ++ score.map avgKV) ("avg_" ++ m)
        = some (SVal.num ((d.map Prod.snd).sum / (d.length : ℚ))) := by
  have h1 : avgList score = .ok (score.map avgKV) := avgList_eq score hdicts
  have hkeys : (score.map avgKV).map Prod.fst
      = (score.map Prod.fst).map (fun s => "avg_" ++ s) := by
    simp [avgKV, Function.comp_def]
  have hnd2 : ((score.map avgKV).map Prod.fst).Nodup := by
    rw [hkeys]
    exact hnd.map (fun a b hab => avg_key_inj hab)
  have hdisj : ∀ k ∈ (score.map avgKV).map Prod.fst, k ∉ score.map Prod.fst := by
    intro k hk
    rw [hkeys] at hk
    rcases List.mem_map.mp hk with ⟨s, hs, rfl⟩
    rcases List.mem_map.mp hs with ⟨p, hp, rfl⟩
    exact hfresh p hp
  have h2 : dictUpdate score (score.map avgKV) = score ++ score.map avgKV :=
    dictUpdate_append (score.map avgKV) score hnd2 hdisj
  constructor
  · rw [avgScore, h1]
    simp only [Bind.bind, Except.bind]
    rw [h2]
  · rw [dget_append_right score (score.map avgKV) ("avg_" ++ m)
      (hfresh (m, SVal.dict d) hmem)]
    exact dget_map_avgKV score m d hnd hmem

/-- Claim C5 (witness): for a score with `f1` computed for two languages
(80 and 90), the averaging step stores `avg_f1 = (80 + 90) / 2`. -/
theorem C5_avg_metric_mean_witness :
    dget (score5 ++ score5.map avgKV) ("avg_" ++ "f1")
      = some (SVal.num ((([("en", (80 : ℚ)), ("fr", (90 : ℚ))]).map Prod.snd).sum
          / (([("en", (80 : ℚ)), ("fr", (90 : ℚ))]).length : ℚ)))
    ∧ avgScore score5 = .ok (score5 ++ score5.map avgKV) := by
  have h := C5_avg_metric_mean score5 "f1" [("en", (80 : ℚ)), ("fr", (90 : ℚ))]
    (by simp [score5]) (by simp [score5, isNEDict]) (by simp [score5])
    (by simp [score5])
  exact ⟨h.2, h.1⟩

/-- Claim C6 (code bug): the claim's selection rule (span group →
composite, else `avg_f1`, else `avg_accuracy`, else none) is never applied:
the summary-metric step raises `KeyError('qa')` at the span-group membership
test, for every task and every score structure. -/
theorem C6_avg_metric_selection_keyerror (task : String) (score : Score) :
    setAvgMetric task score = .error (.keyError "qa") :=
  rfl

/-- Claim C7 (code bug): the tagged-sequence reader drops an in-progress
final example when the file does not end with a blank line — the same two
token-tag lines are returned as one example when followed by a blank line,
and as no example at all without it. -/
theorem C7_read_tag_drops_final_example :
    read_tag fsTagNoBlank "tags" = .ok []
    ∧ read_tag fsTagBlank "tags" = .ok [["B-PER", "O"]] := by
  constructor <;> rfl

/-- Claim C8: for equal positive lengths `n`, the accuracy metric returns
`{accuracy: 100 * k / n}` where `k` is the number of positions at which the
predicted label equals the gold label. -/
theorem C8_accuracy_formula (labels predictions : List String)
    (language : Option String) (n : Nat)
    (hp : predictions.length = n) (hl : labels.length = n) (hn : 0 < n) :
    accuracy labels predictions language =
      .ok [("accuracy", 100 * (countMatches predictions labels n : ℚ) / (n : ℚ))] := by
  simp only [accuracy]
  rw [if_neg (by omega)]
  rw [zip_count_eq_countMatches predictions labels n hp hl, hp]
  rw [div_mul_eq_mul_div, mul_comm]

/-- Claim C8 (witness): predictions `["a","b","c"]` against labels
`["a","x","c"]` yield accuracy `200/3 = (2/3) * 100` (i.e. 66.67 rounded to
two decimals). -/
theorem C8_accuracy_formula_witness :
    accuracy ["a", "x", "c"] ["a", "b", "c"] none = .ok [("accuracy", 200 / 3)] := by
  have h := C8_accuracy_formula ["a", "x", "c"] ["a", "b", "c"] none 3 rfl rfl
    (by norm_num)
  rw [h]
  norm_num [show countMatches ["a", "b", "c"] ["a", "x", "c"] 3 = 2 from by decide]

/-- Claim C9 (counterexample): a sentence field containing the two-space run
`"a  b"` is emitted unchanged — the run is not collapsed to `"a b"`. -/
theorem C9_collapse_counterexample :
    preprocess_one_file_data ["header".toList, "id\ta  b\tc\t1".toList] =
      .ok [["a  b".toList, "c".toList, "1".toList]]
    ∧ "a  b".toList ≠ "a b".toList := by
  constructor
  · decide
  · decide

/-- Claim C9 (amended): the normalization drops the header row and emits one
`[sentence1, sentence2, label]` row per remaining line, where the sentence
fields are only stripped of leading/trailing whitespace — the
split-on-single-space / join-with-single-space round trip is the identity,
so internal runs of spaces are preserved, not collapsed. -/
theorem C9_strip_not_collapse (lines : List (List Char))
    (h : ∀ line ∈ lines.drop 1, 3 < ((pyStrip line).splitOn '\t').length) :
    preprocess_one_file_data lines =
      .ok ((lines.drop 1).map (fun line =>
        [pyStrip (((pyStrip line).splitOn '\t').getD 1 []),
         pyStrip (((pyStrip line).splitOn '\t').getD 2 []),
         ((pyStrip line).splitOn '\t').getD 3 []])) := by
  unfold preprocess_one_file_data
  exact preprocessRowsAux_eq (lines.drop 1) h

/-- Claim C9 (witness): on a concrete file the header is dropped and the
sentence fields keep their interior spacing. -/
theorem C9_strip_not_collapse_witness :
    preprocess_one_file_data ["id\tsent1\tsent2\tlabel".toList,
        "1\ta  b\tc d\t0".toList] =
      .ok [["a  b".toList, "c d".toList, "0".toList]] := by
  have h := C9_strip_not_collapse ["id\tsent1\tsent2\tlabel".toList,
    "1\ta  b\tc d\t0".toList] (by decide)
  rw [h]
  decide

/-- Claim C10: `pawsx_preprocess` calls the one-parameter helper
`_preprocess_one_file` with two arguments, so its very first per-file call
raises `TypeError` for every argument value and file system, and no file is
ever normalized. -/
theorem C10_preprocess_typeerror (data_dir output_dir : String) (fs : CharFS) :
    pawsx_preprocess data_dir output_dir fs = .error .typeError :=
  rfl

end XtremePawsx
